import Mathlib

/-!
Verification of the fosscord-server relationship engine and registration
guard pipeline against its natural-language specification.

The relationship engine is embedded from
`src/api/routes/users/@me/relationships.ts`:
* `putRelationship` models the PUT /users/@me/relationships/:id route
  (which loads the target user record and then runs `updateRelationship`);
* `deleteRelationship` models the DELETE /users/@me/relationships/:id route;
* `requestOrAccept` and `block` are the two intents exposed by PUT
  (`req.body.type ?? RelationshipType.friends`, resp. `blocked`).

The store of relationship rows is a list of `Relationship` records plus a
fresh-id counter (the database assigns row ids on save).  Every operation
returns, besides its outcome, the new store, the trace of store accesses
(user-record reads, row inserts/updates/deletes) and the list of emitted
gateway events, in program order.

The registration pipeline is embedded from the register route source
(`router.post /register`): a fixed sequence of guard checks, each either
falling through or halting with a field-scoped error, followed by account
creation and conditional invite redemption.  External collaborators
(email normalization, captcha verification, duplicate lookups, IP
reputation, the clock, invite validity) are supplied as an environment of
pure functions.
-/

namespace Fosscord

/-- Relationship kinds, from the `RelationshipType` enum used by the source. -/
inductive RelationshipType where
  | friends
  | blocked
  | incoming
  | outgoing
  deriving DecidableEq, Repr

/-- One relationship row: owner `from_id` holds an edge of kind `type`
toward `to_id`; `id` is the database row id. -/
structure Relationship where
  id : Nat
  from_id : Nat
  to_id : Nat
  type : RelationshipType
  deriving DecidableEq, Repr

/-- The relationship table plus the next fresh row id. -/
structure Store where
  rels : List Relationship
  nextId : Nat
  deriving DecidableEq, Repr

/-- `user.relationships`: the rows owned by `uid`. -/
def userRels (s : Store) (uid : Nat) : List Relationship :=
  s.rels.filter (fun r => r.from_id == uid)

/-- `user.relationships.find(x => x.to_id === other)`. -/
def findRel (s : Store) (uid other : Nat) : Option Relationship :=
  (userRels s uid).find? (fun r => r.to_id == other)

/-- The kind of the edge owned by `a` toward `b`, if any. -/
def edgeKind (s : Store) (a b : Nat) : Option RelationshipType :=
  (findRel s a b).map (fun r => r.type)

/-- Number of `friends`-kind edges owned by `uid`. -/
def friendsCount (s : Store) (uid : Nat) : Nat :=
  ((userRels s uid).filter (fun r => r.type == RelationshipType.friends)).length

/-- `relationship.save()` on an existing row: replace the row with id `r.id`. -/
def updateRel (s : Store) (r : Relationship) : Store :=
  { s with rels := s.rels.map (fun x => if x.id == r.id then r else x) }

/-- `new Relationship().save()`: insert a fresh row; the database assigns
the next free id. -/
def insertRel (s : Store) (fromId toId : Nat) (t : RelationshipType) : Store × Relationship :=
  let r : Relationship := { id := s.nextId, from_id := fromId, to_id := toId, type := t }
  ({ rels := s.rels ++ [r], nextId := s.nextId + 1 }, r)

/-- `Relationship.delete({ id })`. -/
def deleteRel (s : Store) (rid : Nat) : Store :=
  { s with rels := s.rels.filter (fun x => x.id != rid) }

/-- Gateway event names RELATIONSHIP_ADD / RELATIONSHIP_REMOVE. -/
inductive EventType where
  | add
  | remove
  deriving DecidableEq, Repr

/-- One emitted gateway event: delivered to `user_id`, carrying the public
projection of a relationship row; the accept-path incoming ADD also
carries `should_notify: true`. -/
structure Event where
  event : EventType
  user_id : Nat
  data : Relationship
  should_notify : Bool := false
  deriving DecidableEq, Repr

/-- A store access: a user-record read (`User.findOneOrFail` with its
relationships) or a row write. -/
inductive StoreOp where
  | readUser (uid : Nat)
  | insert (r : Relationship)
  | update (r : Relationship)
  | delete (rid : Nat)
  deriving DecidableEq, Repr

/-- Whether a store access mutates the store. -/
def StoreOp.isWrite : StoreOp → Bool
  | .readUser _ => false
  | _ => true

/-- The write accesses of a trace. -/
def writesOf (ops : List StoreOp) : List StoreOp :=
  ops.filter StoreOp.isWrite

/-- The failure modes of the relationship routes, one per thrown error of
the source (HTTPError messages and the MAXIMUM_FRIENDS api error). -/
inductive RelError where
  | selfAdd
  | selfRemove
  | alreadyBlocked
  | blockedByTarget
  | alreadyFriends
  | requestAlreadySent
  | unblockRequired
  | maximumFriends (limit : Nat)
  | notRelated
  deriving DecidableEq, Repr

deriving instance DecidableEq for Except

/-- The full observable result of one relationship operation. -/
structure OpResult where
  outcome : Except RelError Unit
  store : Store
  ops : List StoreOp
  events : List Event
  deriving DecidableEq, Repr

/-- The two ADD events emitted at the end of the non-block path of
`updateRelationship`: the initiator receives its own (outgoing-role) row,
the target receives its own (incoming-role) row flagged `should_notify`. -/
def addEvents (uid fid : Nat) (outRel incRel : Relationship) : List Event :=
  [ { event := EventType.add, user_id := uid, data := outRel },
    { event := EventType.add, user_id := fid, data := incRel, should_notify := true } ]

/-- Tail of the block path of `updateRelationship`: after the initiator row
was saved as `blocked`, delete a non-blocked reciprocal row of the target
(emitting REMOVE to the target), then emit ADD to the initiator. -/
def blockFinish (uid fid : Nat) (blockedRel : Relationship) (s : Store) (ops : List StoreOp)
    (friendRequest : Option Relationship) : OpResult :=
  match friendRequest with
  | some fr =>
    if fr.type != RelationshipType.blocked then
      { outcome := Except.ok (), store := deleteRel s fr.id,
        ops := ops ++ [StoreOp.delete fr.id],
        events := [ { event := EventType.remove, user_id := fid, data := fr },
                    { event := EventType.add, user_id := uid, data := blockedRel } ] }
    else
      { outcome := Except.ok (), store := s, ops := ops,
        events := [ { event := EventType.add, user_id := uid, data := blockedRel } ] }
  | none =>
    { outcome := Except.ok (), store := s, ops := ops,
      events := [ { event := EventType.add, user_id := uid, data := blockedRel } ] }

/-- Checks applied to the target-owned reciprocal row (`friendRequest`) on
the non-block path; on success returns the row to be reused as the
incoming-role record, retyped to `friends`. -/
def checkFriendRequest : Option Relationship → Except RelError (Option Relationship)
  | some fr =>
    if fr.type == RelationshipType.blocked then Except.error RelError.blockedByTarget
    else if fr.type == RelationshipType.friends then Except.error RelError.alreadyFriends
    else Except.ok (some fr)
  | none => Except.ok none

/-- Checks applied to the initiator-owned row (`relationship`) on the
non-block path; on success returns the row to be reused as the
outgoing-role record, retyped to `friends`. -/
def checkRelationship : Option Relationship → Except RelError (Option Relationship)
  | some rel =>
    if rel.type == RelationshipType.outgoing then Except.error RelError.requestAlreadySent
    else if rel.type == RelationshipType.blocked then Except.error RelError.unblockRequired
    else if rel.type == RelationshipType.friends then Except.error RelError.alreadyFriends
    else Except.ok (some rel)
  | none => Except.ok none

/-- Tail of the non-block path: save the incoming-role and outgoing-role
rows (reusing an existing row retyped to `friends` when present, otherwise
inserting a fresh pending-request row) and emit one ADD to each side. -/
def finishAdd (uid fid : Nat) (incReuse outReuse : Option Relationship) (s : Store)
    (ops : List StoreOp) : OpResult :=
  match incReuse, outReuse with
  | some fr, some rel =>
    let inc := { fr with type := RelationshipType.friends }
    let out := { rel with type := RelationshipType.friends }
    { outcome := Except.ok (), store := updateRel (updateRel s inc) out,
      ops := ops ++ [StoreOp.update inc, StoreOp.update out],
      events := addEvents uid fid out inc }
  | some fr, none =>
    let inc := { fr with type := RelationshipType.friends }
    let s1 := updateRel s inc
    let ins := insertRel s1 uid fid RelationshipType.outgoing
    { outcome := Except.ok (), store := ins.1,
      ops := ops ++ [StoreOp.update inc, StoreOp.insert ins.2],
      events := addEvents uid fid ins.2 inc }
  | none, some rel =>
    let out := { rel with type := RelationshipType.friends }
    let ins := insertRel s fid uid RelationshipType.incoming
    { outcome := Except.ok (), store := updateRel ins.1 out,
      ops := ops ++ [StoreOp.insert ins.2, StoreOp.update out],
      events := addEvents uid fid out ins.2 }
  | none, none =>
    let insInc := insertRel s fid uid RelationshipType.incoming
    let insOut := insertRel insInc.1 uid fid RelationshipType.outgoing
    { outcome := Except.ok (), store := insOut.1,
      ops := ops ++ [StoreOp.insert insInc.2, StoreOp.insert insOut.2],
      events := addEvents uid fid insOut.2 insInc.2 }

/-- PUT /users/@me/relationships/:id with requested type `t`, initiated by
`uid` against target `fid`: the route first loads the target user record,
then `updateRelationship` rejects self-targeting, loads the initiator
record, and branches on `t` (block path, else friend-request path guarded
by the `maxFriends` cap on the initiator total relationship count). -/
def putRelationship (uid fid : Nat) (t : RelationshipType) (maxFriends : Nat)
    (s : Store) : OpResult :=
  if fid == uid then
    { outcome := Except.error RelError.selfAdd, store := s,
      ops := [StoreOp.readUser fid], events := [] }
  else
    let ops1 : List StoreOp := [StoreOp.readUser fid, StoreOp.readUser uid]
    let relationship := findRel s uid fid
    let friendRequest := findRel s fid uid
    if t == RelationshipType.blocked then
      match relationship with
      | some rel =>
        if rel.type == RelationshipType.blocked then
          { outcome := Except.error RelError.alreadyBlocked, store := s,
            ops := ops1, events := [] }
        else
          let rel2 := { rel with type := RelationshipType.blocked }
          blockFinish uid fid rel2 (updateRel s rel2)
            (ops1 ++ [StoreOp.update rel2]) friendRequest
      | none =>
        let ins := insertRel s uid fid RelationshipType.blocked
        blockFinish uid fid ins.2 ins.1 (ops1 ++ [StoreOp.insert ins.2]) friendRequest
    else if maxFriends ≤ (userRels s uid).length then
      { outcome := Except.error (RelError.maximumFriends maxFriends), store := s,
        ops := ops1, events := [] }
    else
      match checkFriendRequest friendRequest with
      | Except.error e =>
        { outcome := Except.error e, store := s, ops := ops1, events := [] }
      | Except.ok incReuse =>
        match checkRelationship relationship with
        | Except.error e =>
          { outcome := Except.error e, store := s, ops := ops1, events := [] }
        | Except.ok outReuse => finishAdd uid fid incReuse outReuse s ops1

/-- DELETE /users/@me/relationships/:id: self-check before any store read,
then load both user records; 404 when the initiator holds no edge; the
blocked-edge case is a pure unblock (delete own row, REMOVE to self); the
general case also deletes a non-blocked reciprocal row with a REMOVE to
the target. -/
def deleteRelationship (uid fid : Nat) (s : Store) : OpResult :=
  if fid == uid then
    { outcome := Except.error RelError.selfRemove, store := s, ops := [], events := [] }
  else
    let ops1 : List StoreOp := [StoreOp.readUser uid, StoreOp.readUser fid]
    let friendRequest := findRel s fid uid
    match findRel s uid fid with
    | none =>
      { outcome := Except.error RelError.notRelated, store := s, ops := ops1, events := [] }
    | some rel =>
      if rel.type == RelationshipType.blocked then
        { outcome := Except.ok (), store := deleteRel s rel.id,
          ops := ops1 ++ [StoreOp.delete rel.id],
          events := [ { event := EventType.remove, user_id := uid, data := rel } ] }
      else
        match friendRequest with
        | some fr =>
          if fr.type != RelationshipType.blocked then
            { outcome := Except.ok (),
              store := deleteRel (deleteRel s fr.id) rel.id,
              ops := ops1 ++ [StoreOp.delete fr.id, StoreOp.delete rel.id],
              events := [ { event := EventType.remove, user_id := fid, data := fr },
                          { event := EventType.remove, user_id := uid, data := rel } ] }
          else
            { outcome := Except.ok (), store := deleteRel s rel.id,
              ops := ops1 ++ [StoreOp.delete rel.id],
              events := [ { event := EventType.remove, user_id := uid, data := rel } ] }
        | none =>
          { outcome := Except.ok (), store := deleteRel s rel.id,
            ops := ops1 ++ [StoreOp.delete rel.id],
            events := [ { event := EventType.remove, user_id := uid, data := rel } ] }

/-- The RequestAdd/Accept intent: PUT with the default body type
(`req.body.type ?? RelationshipType.friends`). -/
def requestOrAccept (uid fid maxFriends : Nat) (s : Store) : OpResult :=
  putRelationship uid fid RelationshipType.friends maxFriends s

/-- The Block intent: PUT with body type `blocked`. -/
def block (uid fid maxFriends : Nat) (s : Store) : OpResult :=
  putRelationship uid fid RelationshipType.blocked maxFriends s

/-- Database well-formedness of a store: every row id is below the fresh
counter, row ids are unique, and at most one row exists per ordered
(owner, other) pair. -/
def Store.WF (s : Store) : Prop :=
  (∀ r ∈ s.rels, r.id < s.nextId) ∧
  (s.rels.map (fun r => r.id)).Nodup ∧
  (∀ r1 ∈ s.rels, ∀ r2 ∈ s.rels, r1.from_id = r2.from_id → r1.to_id = r2.to_id → r1 = r2)

instance (s : Store) : Decidable (Store.WF s) := by
  unfold Store.WF
  exact inferInstance

/-!
Registration guard pipeline, embedded from the register route source.
Configuration is the snapshot `Config.get()` restricted to the fields the
route reads; dates are modeled as integers (days), larger meaning later,
so "higher is younger" as in the source comparison.
-/

/-- The configuration fields read by the register route
(`register.*` and `security.captcha.enabled`). -/
structure RegisterCfg where
  allowNewRegistration : Bool
  disabled : Bool
  allowGuests : Bool
  requireCaptcha : Bool
  captchaEnabled : Bool
  allowMultipleAccounts : Bool
  blockProxies : Bool
  emailRequired : Bool
  dobRequired : Bool
  dobMinimum : Nat
  passwordRequired : Bool
  requireInvite : Bool
  guestsRequireInvite : Bool
  deriving DecidableEq, Repr

/-- The registration payload fields the route inspects. -/
structure RegisterBody where
  consent : Bool
  email : Option String
  password : Option String
  date_of_birth : Option Int
  invite : Option String
  captcha_key : Option String
  deriving DecidableEq, Repr

/-- External collaborators of the register route, as pure functions:
`adjustEmail` normalization, captcha verification, fingerprint and email
duplicate lookups, IP reputation, the year-subtracting clock
(`new Date()` with `setFullYear(year - n)`), and invite validity. -/
structure RegisterEnv where
  adjustEmail : Option String → Option String
  captchaVerify : String → Bool
  fingerprintExists : Bool
  emailExists : String → Bool
  ipIsProxy : Bool
  nowMinusYears : Nat → Int
  inviteValid : String → Bool

/-- The observable responses of the register route. -/
inductive RegResult where
  | fieldError (field code : String)
  | captchaRequired
  | captchaInvalid
  | proxyBlocked
  | inviteFailed
  | success
  deriving DecidableEq, Repr

/-- The state-changing steps the route performs. -/
inductive RegEffect where
  | createAccount
  | redeemInvite (code : String)
  deriving DecidableEq, Repr

/-- Result of the register route together with the state changes it made. -/
structure RegOutput where
  result : RegResult
  effects : List RegEffect
  deriving DecidableEq, Repr

/-- In the source, the invite-gate condition tests the truthiness of
`register.email`, which is the email-policy configuration object and is
therefore always truthy; the guests clause of the gate can never fire. -/
def registerEmailObjTruthy : Bool := true

/-- Final stage: `User.register` creates the account, then a present
invite code is redeemed (a failing redemption surfaces as an error; the
account is not rolled back). -/
def regCreate (body : RegisterBody) (env : RegisterEnv) : RegOutput :=
  match body.invite with
  | some c =>
    if env.inviteValid c then
      { result := RegResult.success, effects := [RegEffect.createAccount, RegEffect.redeemInvite c] }
    else
      { result := RegResult.inviteFailed, effects := [RegEffect.createAccount, RegEffect.redeemInvite c] }
  | none => { result := RegResult.success, effects := [RegEffect.createAccount] }

/-- Invite gate: reject when no invite code was supplied and the policy
requires one. -/
def regInvite (body : RegisterBody) (cfg : RegisterCfg) (env : RegisterEnv) : RegOutput :=
  if body.invite.isNone &&
      (cfg.requireInvite || (cfg.guestsRequireInvite && !registerEmailObjTruthy)) then
    { result := RegResult.fieldError "email" "INVITE_ONLY", effects := [] }
  else regCreate body env

/-- Password stage: a present password is bcrypt-hashed (no observable
effect on the remaining checks); a missing one is rejected when the
policy requires a password. -/
def regPassword (body : RegisterBody) (cfg : RegisterCfg) (env : RegisterEnv) : RegOutput :=
  match body.password with
  | some _ => regInvite body cfg env
  | none =>
    if cfg.passwordRequired then
      { result := RegResult.fieldError "password" "BASE_TYPE_REQUIRED", effects := [] }
    else regInvite body cfg env

/-- Date-of-birth stage: a missing date of of birth is rejected as required
only when a password is supplied (guest accounts are exempt); otherwise,
when the policy sets a nonzero minimum age, a birth date strictly later
than the cutoff (now minus minimum years; higher is younger) is rejected.
A missing date in this second branch compares as false in the source
(`new Date(undefined)` is NaN) and falls through. -/
def regDob (body : RegisterBody) (cfg : RegisterCfg) (env : RegisterEnv) : RegOutput :=
  if cfg.dobRequired && body.date_of_birth.isNone && body.password.isSome then
    { result := RegResult.fieldError "date_of_birth" "BASE_TYPE_REQUIRED", effects := [] }
  else if cfg.dobRequired && (cfg.dobMinimum != 0) then
    match body.date_of_birth with
    | some d =>
      if env.nowMinusYears cfg.dobMinimum < d then
        { result := RegResult.fieldError "date_of_birth" "DATE_OF_BIRTH_UNDERAGE", effects := [] }
      else regPassword body cfg env
    | none => regPassword body cfg env
  else regPassword body cfg env

/-- Email stage, given the normalized email: a present email is checked
for duplicates; a missing one is rejected when the policy requires an
email.  (The inner INVALID_EMAIL throw of the source is dead code: it
re-tests the emptiness of an email known to be present.) -/
def regEmail (body : RegisterBody) (cfg : RegisterCfg) (env : RegisterEnv)
    (email : Option String) : RegOutput :=
  match email with
  | some e =>
    if env.emailExists e then
      { result := RegResult.fieldError "email" "EMAIL_ALREADY_REGISTERED", effects := [] }
    else regDob body cfg env
  | none =>
    if cfg.emailRequired then
      { result := RegResult.fieldError "email" "BASE_TYPE_REQUIRED", effects := [] }
    else regDob body cfg env

/-- Proxy stage: reject proxy origins when configured. -/
def regProxy (body : RegisterBody) (cfg : RegisterCfg) (env : RegisterEnv)
    (email : Option String) : RegOutput :=
  if cfg.blockProxies && env.ipIsProxy then
    { result := RegResult.proxyBlocked, effects := [] }
  else regEmail body cfg env email

/-- Fingerprint stage: when multiple accounts are disallowed, an existing
account with the same fingerprint is rejected. -/
def regFingerprint (body : RegisterBody) (cfg : RegisterCfg) (env : RegisterEnv)
    (email : Option String) : RegOutput :=
  if !cfg.allowMultipleAccounts && env.fingerprintExists then
    { result := RegResult.fieldError "email" "EMAIL_ALREADY_REGISTERED", effects := [] }
  else regProxy body cfg env email

/-- Captcha stage: when required and enabled, a missing key yields the
re-challenge payload and a failing verification yields the failure
payload. -/
def regCaptcha (body : RegisterBody) (cfg : RegisterCfg) (env : RegisterEnv)
    (email : Option String) : RegOutput :=
  if cfg.requireCaptcha && cfg.captchaEnabled then
    match body.captcha_key with
    | none => { result := RegResult.captchaRequired, effects := [] }
    | some k =>
      if !(env.captchaVerify k) then { result := RegResult.captchaInvalid, effects := [] }
      else regFingerprint body cfg env email
  else regFingerprint body cfg env email

/-- The register route: normalize the email, then run the guard checks in
source order, short-circuiting at the first failure. -/
def register (body : RegisterBody) (cfg : RegisterCfg) (env : RegisterEnv) : RegOutput :=
  let email := env.adjustEmail body.email
  if !cfg.allowNewRegistration then
    { result := RegResult.fieldError "email" "REGISTRATION_DISABLED", effects := [] }
  else if !body.consent then
    { result := RegResult.fieldError "consent" "CONSENT_REQUIRED", effects := [] }
  else if cfg.disabled then
    { result := RegResult.fieldError "email" "DISABLED", effects := [] }
  else if !cfg.allowGuests then
    { result := RegResult.fieldError "email" "GUESTS_DISABLED", effects := [] }
  else regCaptcha body cfg env email

/-! ### Concrete fixtures used by witnesses and counterexamples -/

/-- A permissive configuration: registration open, guests allowed, no
captcha, multiple accounts allowed, no proxy block, email optional, date
of birth required from age 13, password optional, no invite requirement. -/
def cfgA : RegisterCfg :=
  { allowNewRegistration := true, disabled := false, allowGuests := true,
    requireCaptcha := false, captchaEnabled := false, allowMultipleAccounts := true,
    blockProxies := false, emailRequired := false, dobRequired := true,
    dobMinimum := 13, passwordRequired := false, requireInvite := false,
    guestsRequireInvite := false }

/-- An environment with identity email normalization, passing captcha, no
duplicate fingerprints or emails, no proxy, a clock whose years-back
cutoff is day `-(365 * n)`, and no valid invite codes. -/
def envA : RegisterEnv :=
  { adjustEmail := fun e => e, captchaVerify := fun _ => true,
    fingerprintExists := false, emailExists := fun _ => false, ipIsProxy := false,
    nowMinusYears := fun n => -(365 * (n : Int)), inviteValid := fun _ => false }

/-- A consenting guest payload with every optional field absent. -/
def bodyA : RegisterBody :=
  { consent := true, email := none, password := none, date_of_birth := none,
    invite := none, captcha_key := none }

/-! ### Helper lemmas about the store primitives -/

theorem findRel_eq_find? (s : Store) (a b : Nat) :
    findRel s a b = s.rels.find? (fun r => r.from_id == a && r.to_id == b) := by
  unfold findRel userRels
  induction s.rels with
  | nil => rfl
  | cons x xs ih =>
    by_cases h1 : x.from_id = a
    · by_cases h2 : x.to_id = b
      · simp [List.filter_cons, h1, h2]
      · simp [List.filter_cons, h1, h2, ih]
    · simp [List.filter_cons, h1, ih]

theorem findRel_some {s : Store} {a b : Nat} {r : Relationship}
    (h : findRel s a b = some r) :
    r ∈ s.rels ∧ r.from_id = a ∧ r.to_id = b := by
  rw [findRel_eq_find?] at h
  have hm := List.mem_of_find?_eq_some h
  have hp := List.find?_some h
  simp only [Bool.and_eq_true, beq_iff_eq] at hp
  exact ⟨hm, hp.1, hp.2⟩

theorem findRel_none {s : Store} {a b : Nat} (h : findRel s a b = none) :
    ∀ r ∈ s.rels, r.from_id = a → r.to_id = b → False := by
  rw [findRel_eq_find?, List.find?_eq_none] at h
  intro r hr h1 h2
  have := h r hr
  simp [h1, h2] at this

theorem id_inj {s : Store} (hwf : Store.WF s) {x y : Relationship}
    (hx : x ∈ s.rels) (hy : y ∈ s.rels) (h : x.id = y.id) : x = y :=
  List.inj_on_of_nodup_map hwf.2.1 hx hy h

theorem pair_uniq {s : Store} (hwf : Store.WF s) {x y : Relationship}
    (hx : x ∈ s.rels) (hy : y ∈ s.rels) (h1 : x.from_id = y.from_id)
    (h2 : x.to_id = y.to_id) : x = y :=
  hwf.2.2 x hx y hy h1 h2

theorem find?_map_eq {α : Type} (l : List α) (f : α → α) (q : α → Bool)
    (h1 : ∀ x ∈ l, q x = false → q (f x) = false)
    (h2 : ∀ x ∈ l, q x = true → f x = x) :
    (l.map f).find? q = l.find? q := by
  induction l with
  | nil => rfl
  | cons x xs ih =>
    simp only [List.map_cons]
    cases hq : q x with
    | true =>
      rw [h2 x (by simp) hq]
      rw [List.find?_cons_of_pos _ hq, List.find?_cons_of_pos _ hq]
    | false =>
      rw [List.find?_cons_of_neg _ (by simp [h1 x (by simp) hq]),
          List.find?_cons_of_neg _ (by simp [hq])]
      exact ih (fun y hy => h1 y (by simp [hy])) (fun y hy => h2 y (by simp [hy]))

theorem find?_filter_eq {α : Type} (l : List α) (p q : α → Bool)
    (h : ∀ x ∈ l, q x = true → p x = true) :
    (l.filter p).find? q = l.find? q := by
  induction l with
  | nil => rfl
  | cons x xs ih =>
    by_cases hp : p x = true
    · rw [List.filter_cons_of_pos hp]
      cases hq : q x with
      | true =>
        rw [List.find?_cons_of_pos _ hq, List.find?_cons_of_pos _ hq]
      | false =>
        rw [List.find?_cons_of_neg _ (by simp [hq]), List.find?_cons_of_neg _ (by simp [hq])]
        exact ih (fun y hy => h y (by simp [hy]))
    · have hq : q x = false := by
        cases hqx : q x with
        | true => exact absurd (h x (by simp) hqx) hp
        | false => rfl
      rw [List.filter_cons_of_neg (by simp [hp]), List.find?_cons_of_neg _ (by simp [hq])]
      exact ih (fun y hy => h y (by simp [hy]))

theorem find?_filter_none {α : Type} (l : List α) (p q : α → Bool)
    (h : ∀ x ∈ l, q x = true → p x = false) :
    (l.filter p).find? q = none := by
  rw [List.find?_eq_none]
  intro x hx hq
  have hmem := List.mem_filter.mp hx
  have hfalse := h x hmem.1 hq
  rw [hfalse] at hmem
  exact absurd hmem.2 (by simp)

theorem find?_update {l : List Relationship} {q : Relationship → Bool} {rel r2 : Relationship}
    (hfind : l.find? q = some rel)
    (huniq : ∀ x ∈ l, x.id = rel.id → x = rel)
    (hq : q r2 = true) (hid : r2.id = rel.id) :
    (l.map (fun x => if x.id == r2.id then r2 else x)).find? q = some r2 := by
  induction l with
  | nil => simp at hfind
  | cons x xs ih =>
    cases hqx : q x with
    | true =>
      rw [List.find?_cons_of_pos _ hqx] at hfind
      injection hfind with hxr
      simp only [List.map_cons]
      rw [if_pos (by rw [hxr, hid, beq_self_eq_true])]
      exact List.find?_cons_of_pos _ hq
    | false =>
      rw [List.find?_cons_of_neg _ (by simp [hqx])] at hfind
      have hqrel : q rel = true := List.find?_some hfind
      have hxid : x.id ≠ rel.id := by
        intro hcontra
        have hx := huniq x (by simp) hcontra
        rw [hx, hqrel] at hqx
        cases hqx
      simp only [List.map_cons]
      rw [if_neg (by rw [hid]; simp [hxid])]
      rw [List.find?_cons_of_neg _ (by simp [hqx])]
      exact ih hfind (fun y hy hyid => huniq y (by simp [hy]) hyid)

/-- `findRel` after an update of a row that neither matches the searched
pair nor shares an id with any row matching it. -/
theorem findRel_updateRel_eq (s : Store) (r2 : Relationship) (a b : Nat)
    (hq2 : (r2.from_id == a && r2.to_id == b) = false)
    (hex : ∀ x ∈ s.rels, x.from_id = a → x.to_id = b → x.id ≠ r2.id) :
    findRel (updateRel s r2) a b = findRel s a b := by
  rw [findRel_eq_find?, findRel_eq_find?]
  apply find?_map_eq
  · intro x _ hqx
    by_cases hidx : x.id = r2.id
    · simpa [hidx] using hq2
    · simpa [hidx] using hqx
  · intro x hx hqx
    have hpair : x.from_id = a ∧ x.to_id = b := by simpa using hqx
    have hne := hex x hx hpair.1 hpair.2
    simp [hne]

/-- `findRel` after an update of the very row the search returns. -/
theorem findRel_updateRel_self (s : Store) (hwf : Store.WF s) (rel r2 : Relationship)
    (a b : Nat) (hfind : findRel s a b = some rel) (hid : r2.id = rel.id)
    (hq : (r2.from_id == a && r2.to_id == b) = true) :
    findRel (updateRel s r2) a b = some r2 := by
  have hmem := (findRel_some hfind).1
  rw [findRel_eq_find?] at hfind ⊢
  exact find?_update hfind (fun x hx hxid => id_inj hwf hx hmem hxid) hq hid

/-- `findRel` after deleting a row whose id is held by no row matching the
searched pair. -/
theorem findRel_deleteRel_eq (s : Store) (rid : Nat) (a b : Nat)
    (hex : ∀ x ∈ s.rels, x.from_id = a → x.to_id = b → x.id ≠ rid) :
    findRel (deleteRel s rid) a b = findRel s a b := by
  rw [findRel_eq_find?, findRel_eq_find?]
  apply find?_filter_eq
  intro x hx hqx
  have hpair : x.from_id = a ∧ x.to_id = b := by simpa using hqx
  simp [hex x hx hpair.1 hpair.2]

/-- `findRel` after deleting the only row matching the searched pair. -/
theorem findRel_deleteRel_none (s : Store) (fr : Relationship) (a b : Nat)
    (huniq : ∀ x ∈ s.rels, x.from_id = a → x.to_id = b → x = fr) :
    findRel (deleteRel s fr.id) a b = none := by
  rw [findRel_eq_find?]
  apply find?_filter_none
  intro x hx hqx
  have hpair : x.from_id = a ∧ x.to_id = b := by simpa using hqx
  rw [huniq x hx hpair.1 hpair.2]
  simp

/-- The block-path tail always reports success. -/
theorem blockFinish_outcome (uid fid : Nat) (b : Relationship) (s : Store)
    (ops : List StoreOp) (fr : Option Relationship) :
    (blockFinish uid fid b s ops fr).outcome = Except.ok () := by
  cases fr with
  | none => rfl
  | some fr =>
    by_cases h : fr.type = RelationshipType.blocked <;> simp [blockFinish, h]

/-- A block either fails the self check, fails as already blocked, or
succeeds; in particular it never fails with the friends-limit error. -/
theorem block_outcome_cases (uid fid maxF : Nat) (s : Store) :
    (block uid fid maxF s).outcome = Except.error RelError.selfAdd ∨
    (block uid fid maxF s).outcome = Except.error RelError.alreadyBlocked ∨
    (block uid fid maxF s).outcome = Except.ok () := by
  unfold block putRelationship
  by_cases h : fid = uid
  · simp [h]
  · rw [if_neg (by simp [h])]
    simp only [beq_self_eq_true, if_true]
    split
    · split
      · right; left; rfl
      · right; right
        exact blockFinish_outcome ..
    · right; right
      exact blockFinish_outcome ..

theorem mem_deleteRel {s : Store} {rid : Nat} {x : Relationship}
    (hx : x ∈ (deleteRel s rid).rels) : x ∈ s.rels := by
  simp only [deleteRel] at hx
  exact (List.mem_filter.mp hx).1

theorem mem_updateRel {s : Store} {r2 : Relationship} {x : Relationship}
    (hx : x ∈ (updateRel s r2).rels) : x = r2 ∨ x ∈ s.rels := by
  simp only [updateRel, List.mem_map] at hx
  obtain ⟨y, hy, hxy⟩ := hx
  by_cases h : y.id = r2.id
  · left
    rw [← hxy]
    simp [h]
  · right
    rw [← hxy, if_neg (by simp [h])]
    exact hy

/-- Reduction of the block route when the initiator already owns a
non-blocked row toward the target. -/
theorem block_eq_of_some (s : Store) (uid fid maxF : Nat) (hne : fid ≠ uid)
    (rel : Relationship) (hrel : findRel s uid fid = some rel)
    (hb : rel.type ≠ RelationshipType.blocked) :
    block uid fid maxF s =
      blockFinish uid fid { rel with type := RelationshipType.blocked }
        (updateRel s { rel with type := RelationshipType.blocked })
        [StoreOp.readUser fid, StoreOp.readUser uid,
         StoreOp.update { rel with type := RelationshipType.blocked }]
        (findRel s fid uid) := by
  unfold block putRelationship
  rw [if_neg (by simp [hne])]
  simp [hrel, hb]

/-- Reduction of the block route when the initiator owns no row toward
the target. -/
theorem block_eq_of_none (s : Store) (uid fid maxF : Nat) (hne : fid ≠ uid)
    (hrel : findRel s uid fid = none) :
    block uid fid maxF s =
      blockFinish uid fid (insertRel s uid fid RelationshipType.blocked).2
        (insertRel s uid fid RelationshipType.blocked).1
        [StoreOp.readUser fid, StoreOp.readUser uid,
         StoreOp.insert (insertRel s uid fid RelationshipType.blocked).2]
        (findRel s fid uid) := by
  unfold block putRelationship
  rw [if_neg (by simp [hne])]
  simp [hrel]

theorem blockFinish_some_del (uid fid : Nat) (b : Relationship) (s : Store)
    (ops : List StoreOp) (fr : Relationship)
    (h : fr.type ≠ RelationshipType.blocked) :
    blockFinish uid fid b s ops (some fr) =
      { outcome := Except.ok (), store := deleteRel s fr.id,
        ops := ops ++ [StoreOp.delete fr.id],
        events := [ { event := EventType.remove, user_id := fid, data := fr },
                    { event := EventType.add, user_id := uid, data := b } ] } := by
  simp [blockFinish, h]

theorem blockFinish_some_keep (uid fid : Nat) (b : Relationship) (s : Store)
    (ops : List StoreOp) (fr : Relationship)
    (h : fr.type = RelationshipType.blocked) :
    blockFinish uid fid b s ops (some fr) =
      { outcome := Except.ok (), store := s, ops := ops,
        events := [ { event := EventType.add, user_id := uid, data := b } ] } := by
  simp [blockFinish, h]

theorem blockFinish_none_eq (uid fid : Nat) (b : Relationship) (s : Store)
    (ops : List StoreOp) :
    blockFinish uid fid b s ops none =
      { outcome := Except.ok (), store := s, ops := ops,
        events := [ { event := EventType.add, user_id := uid, data := b } ] } := rfl

/-- A block against an already-blocked target fails with AlreadyBlocked,
changing nothing, writing nothing, emitting nothing. -/
theorem block_alreadyBlocked (s : Store) (uid fid maxF : Nat) (hne : fid ≠ uid)
    (r : Relationship) (hrel : findRel s uid fid = some r)
    (hb : r.type = RelationshipType.blocked) :
    block uid fid maxF s =
      { outcome := Except.error RelError.alreadyBlocked, store := s,
        ops := [StoreOp.readUser fid, StoreOp.readUser uid], events := [] } := by
  unfold block putRelationship
  rw [if_neg (by simp [hne])]
  simp [hrel, hb]

/-- Full characterization of a successful block: the initiator ends up
owning a blocked row toward the target; the target's reciprocal row is
deleted when it was not itself blocked (with a REMOVE event to the
target) and kept when it was; the initiator receives the only ADD. -/
theorem block_success_spec (s : Store) (uid fid maxF : Nat)
    (hwf : Store.WF s) (hne : fid ≠ uid)
    (hpre : ∀ r, findRel s uid fid = some r → r.type ≠ RelationshipType.blocked) :
    ∃ b : Relationship, b.from_id = uid ∧ b.to_id = fid ∧
      b.type = RelationshipType.blocked ∧
      (block uid fid maxF s).outcome = Except.ok () ∧
      findRel (block uid fid maxF s).store uid fid = some b ∧
      findRel (block uid fid maxF s).store fid uid =
        (match findRel s fid uid with
         | some fr => if fr.type = RelationshipType.blocked then some fr else none
         | none => none) ∧
      (block uid fid maxF s).events =
        (match findRel s fid uid with
         | some fr =>
           if fr.type = RelationshipType.blocked then
             [ { event := EventType.add, user_id := uid, data := b } ]
           else
             [ { event := EventType.remove, user_id := fid, data := fr },
               { event := EventType.add, user_id := uid, data := b } ]
         | none => [ { event := EventType.add, user_id := uid, data := b } ]) := by
  cases hrel : findRel s uid fid with
  | some rel =>
    have hb := hpre rel hrel
    obtain ⟨hrmem, hrfrom, hrto⟩ := findRel_some hrel
    have heq := block_eq_of_some s uid fid maxF hne rel hrel hb
    refine ⟨{ rel with type := RelationshipType.blocked }, hrfrom, hrto, rfl, ?_⟩
    have hupdself : findRel (updateRel s { rel with type := RelationshipType.blocked })
        uid fid = some { rel with type := RelationshipType.blocked } :=
      findRel_updateRel_self s hwf rel _ uid fid hrel rfl (by simp [hrfrom, hrto])
    have hupdother : findRel (updateRel s { rel with type := RelationshipType.blocked })
        fid uid = findRel s fid uid := by
      apply findRel_updateRel_eq
      · simp [hrfrom, Ne.symm hne]
      · intro x hx hxf hxt hxid
        have hxrel : x = rel := id_inj hwf hx hrmem hxid
        rw [hxrel, hrfrom] at hxf
        exact hne hxf.symm
    cases hfr : findRel s fid uid with
    | some fr =>
      obtain ⟨hfmem, hffrom, hfto⟩ := findRel_some hfr
      have hrelfr : rel.id ≠ fr.id := by
        intro hcontra
        have := id_inj hwf hrmem hfmem hcontra
        rw [this, hffrom] at hrfrom
        exact hne hrfrom
      by_cases hft : fr.type = RelationshipType.blocked
      · rw [heq, hfr, blockFinish_some_keep _ _ _ _ _ _ hft]
        refine ⟨rfl, hupdself, ?_, ?_⟩
        · simp only [hupdother, hfr, hft, if_pos]
        · simp [hft]
      · rw [heq, hfr, blockFinish_some_del _ _ _ _ _ _ hft]
        refine ⟨rfl, ?_, ?_, ?_⟩
        · rw [findRel_deleteRel_eq]
          · exact hupdself
          · intro x hx hxf hxt
            rcases mem_updateRel hx with hxr | hxs
            · rw [hxr]
              exact hrelfr
            · have : x = rel := pair_uniq hwf hxs hrmem (by rw [hxf, hrfrom]) (by rw [hxt, hrto])
              rw [this]
              exact hrelfr
        · rw [findRel_deleteRel_none]
          · simp [hft]
          · intro x hx hxf hxt
            rcases mem_updateRel hx with hxr | hxs
            · exfalso
              rw [hxr] at hxf
              exact hne (by rw [← hxf, hrfrom])
            · exact pair_uniq hwf hxs hfmem (by rw [hxf, hffrom]) (by rw [hxt, hfto])
        · simp [hft]
    | none =>
      rw [heq, hfr, blockFinish_none_eq]
      exact ⟨rfl, hupdself, by simp [hupdother, hfr], by simp⟩
  | none =>
    have heq := block_eq_of_none s uid fid maxF hne hrel
    have hinsself : findRel (insertRel s uid fid RelationshipType.blocked).1 uid fid =
        some (insertRel s uid fid RelationshipType.blocked).2 := by
      rw [findRel_eq_find?] at hrel ⊢
      simp [insertRel, List.find?_append, hrel]
    have hinsother : findRel (insertRel s uid fid RelationshipType.blocked).1 fid uid =
        findRel s fid uid := by
      rw [findRel_eq_find?, findRel_eq_find?]
      simp only [insertRel, List.find?_append]
      have : (((⟨s.nextId, uid, fid, RelationshipType.blocked⟩ : Relationship).from_id == fid) &&
          ((⟨s.nextId, uid, fid, RelationshipType.blocked⟩ : Relationship).to_id == uid)) = false := by
        simp [Ne.symm hne]
      simp [this]
    refine ⟨(insertRel s uid fid RelationshipType.blocked).2, rfl, rfl, rfl, ?_⟩
    cases hfr : findRel s fid uid with
    | some fr =>
      obtain ⟨hfmem, hffrom, hfto⟩ := findRel_some hfr
      have hfrid : fr.id < s.nextId := hwf.1 fr hfmem
      by_cases hft : fr.type = RelationshipType.blocked
      · rw [heq, hfr, blockFinish_some_keep _ _ _ _ _ _ hft]
        refine ⟨rfl, hinsself, ?_, by simp [hft]⟩
        simp only [hinsother, hfr, hft, if_pos]
      · rw [heq, hfr, blockFinish_some_del _ _ _ _ _ _ hft]
        refine ⟨rfl, ?_, ?_, by simp [hft]⟩
        · rw [findRel_deleteRel_eq]
          · exact hinsself
          · intro x hx hxf hxt
            simp only [insertRel, List.mem_append, List.mem_singleton] at hx
            rcases hx with hxs | hxnew
            · exfalso
              exact findRel_none hrel x hxs hxf hxt
            · rw [hxnew]
              show s.nextId ≠ fr.id
              omega
        · rw [findRel_deleteRel_none]
          · simp [hft]
          · intro x hx hxf hxt
            simp only [insertRel, List.mem_append, List.mem_singleton] at hx
            rcases hx with hxs | hxnew
            · exact pair_uniq hwf hxs hfmem (by rw [hxf, hffrom]) (by rw [hxt, hfto])
            · exfalso
              rw [hxnew] at hxf
              exact hne (by rw [← hxf])
    | none =>
      rw [heq, hfr, blockFinish_none_eq]
      exact ⟨rfl, hinsself, by simp [hinsother, hfr], by simp⟩

theorem map_update_of_ne (l : List Relationship) (r2 : Relationship)
    (h : ∀ x ∈ l, x.id ≠ r2.id) :
    l.map (fun x => if x.id == r2.id then r2 else x) = l := by
  induction l with
  | nil => rfl
  | cons x xs ih =>
    simp only [List.map_cons]
    rw [if_neg (by simp [h x (by simp)])]
    rw [ih (fun y hy => h y (by simp [hy]))]

theorem updateRel_append_two (s : Store) (e1 e2 r2 : Relationship) (m : Nat)
    (h : ∀ x ∈ s.rels, x.id ≠ r2.id) :
    updateRel ⟨s.rels ++ [e1, e2], m⟩ r2 =
      ⟨s.rels ++ [if e1.id == r2.id then r2 else e1,
                  if e2.id == r2.id then r2 else e2], m⟩ := by
  unfold updateRel
  simp only [List.map_append, List.map_cons, List.map_nil]
  rw [map_update_of_ne s.rels r2 h]

/-- Reduction of `requestOrAccept` when no edge exists in either
direction: a fresh incoming/outgoing row pair is inserted and one ADD is
emitted to each side. -/
theorem requestOrAccept_fresh (s : Store) (uid fid maxF : Nat) (hne : fid ≠ uid)
    (hrel : findRel s uid fid = none) (hfr : findRel s fid uid = none)
    (hcap : (userRels s uid).length < maxF) :
    requestOrAccept uid fid maxF s =
      { outcome := Except.ok (),
        store := ⟨s.rels ++ [⟨s.nextId, fid, uid, RelationshipType.incoming⟩,
                             ⟨s.nextId + 1, uid, fid, RelationshipType.outgoing⟩],
                  s.nextId + 2⟩,
        ops := [StoreOp.readUser fid, StoreOp.readUser uid,
                StoreOp.insert ⟨s.nextId, fid, uid, RelationshipType.incoming⟩,
                StoreOp.insert ⟨s.nextId + 1, uid, fid, RelationshipType.outgoing⟩],
        events := [ { event := EventType.add, user_id := uid,
                      data := ⟨s.nextId + 1, uid, fid, RelationshipType.outgoing⟩ },
                    { event := EventType.add, user_id := fid,
                      data := ⟨s.nextId, fid, uid, RelationshipType.incoming⟩,
                      should_notify := true } ] } := by
  unfold requestOrAccept putRelationship
  rw [if_neg (by simp [hne])]
  simp only [hrel, hfr,
    show (RelationshipType.friends == RelationshipType.blocked) = false from rfl,
    Bool.false_eq_true, if_false]
  rw [if_neg (Nat.not_le.mpr hcap)]
  simp [checkFriendRequest, checkRelationship, finishAdd, insertRel, addEvents]

/-- Reduction of `requestOrAccept` on the accept path: both pending rows
exist (initiator incoming, target outgoing); both are retyped to friends
and one ADD is emitted to each side. -/
theorem requestOrAccept_accept (s : Store) (uid fid maxF : Nat) (hne : fid ≠ uid)
    (rel fr : Relationship) (hrel : findRel s uid fid = some rel)
    (hrelt : rel.type = RelationshipType.incoming)
    (hfr : findRel s fid uid = some fr) (hfrt : fr.type = RelationshipType.outgoing)
    (hcap : (userRels s uid).length < maxF) :
    requestOrAccept uid fid maxF s =
      { outcome := Except.ok (),
        store := updateRel (updateRel s { fr with type := RelationshipType.friends })
                   { rel with type := RelationshipType.friends },
        ops := [StoreOp.readUser fid, StoreOp.readUser uid,
                StoreOp.update { fr with type := RelationshipType.friends },
                StoreOp.update { rel with type := RelationshipType.friends }],
        events := [ { event := EventType.add, user_id := uid,
                      data := { rel with type := RelationshipType.friends } },
                    { event := EventType.add, user_id := fid,
                      data := { fr with type := RelationshipType.friends },
                      should_notify := true } ] } := by
  unfold requestOrAccept putRelationship
  rw [if_neg (by simp [hne])]
  simp only [hrel, hfr,
    show (RelationshipType.friends == RelationshipType.blocked) = false from rfl,
    Bool.false_eq_true, if_false]
  rw [if_neg (Nat.not_le.mpr hcap)]
  simp [checkFriendRequest, checkRelationship, finishAdd, addEvents, hrelt, hfrt]

/-- A fresh request followed by the reciprocal accept: both calls
succeed, and the final store is the original rows plus a friends row in
each direction (ids `nextId` for the first initiator's target-side row
and `nextId + 1` for its own row). -/
theorem requestOrAccept_pair (s : Store) (a b maxF : Nat)
    (hwf : Store.WF s) (hne : a ≠ b)
    (hab : findRel s a b = none) (hba : findRel s b a = none)
    (hcapA : (userRels s a).length < maxF)
    (hcapB : (userRels s b).length + 1 < maxF) :
    (requestOrAccept a b maxF s).outcome = Except.ok () ∧
    (requestOrAccept b a maxF (requestOrAccept a b maxF s).store).outcome =
      Except.ok () ∧
    (requestOrAccept b a maxF (requestOrAccept a b maxF s).store).store =
      ⟨s.rels ++ [⟨s.nextId, b, a, RelationshipType.friends⟩,
                  ⟨s.nextId + 1, a, b, RelationshipType.friends⟩], s.nextId + 2⟩ := by
  have hfresh := requestOrAccept_fresh s a b maxF (Ne.symm hne) hab hba hcapA
  rw [hfresh]
  dsimp only
  have hab_beq : (a == b) = false := by
    simp [hne]
  have hba_beq : (b == a) = false := by
    simp [Ne.symm hne]
  have hba' : s.rels.find? (fun r => r.from_id == b && r.to_id == a) = none := by
    rw [← findRel_eq_find?]
    exact hba
  have hab' : s.rels.find? (fun r => r.from_id == a && r.to_id == b) = none := by
    rw [← findRel_eq_find?]
    exact hab
  have hfind1 : findRel ⟨s.rels ++ [⟨s.nextId, b, a, RelationshipType.incoming⟩,
      ⟨s.nextId + 1, a, b, RelationshipType.outgoing⟩], s.nextId + 2⟩ b a =
      some ⟨s.nextId, b, a, RelationshipType.incoming⟩ := by
    rw [findRel_eq_find?]
    show ((s.rels ++ _).find? _) = _
    rw [List.find?_append, hba']
    simp [List.find?]
  have hfind2 : findRel ⟨s.rels ++ [⟨s.nextId, b, a, RelationshipType.incoming⟩,
      ⟨s.nextId + 1, a, b, RelationshipType.outgoing⟩], s.nextId + 2⟩ a b =
      some ⟨s.nextId + 1, a, b, RelationshipType.outgoing⟩ := by
    rw [findRel_eq_find?]
    show ((s.rels ++ _).find? _) = _
    rw [List.find?_append, hab']
    simp [List.find?, hba_beq]
  have hlen : (userRels ⟨s.rels ++ [⟨s.nextId, b, a, RelationshipType.incoming⟩,
      ⟨s.nextId + 1, a, b, RelationshipType.outgoing⟩], s.nextId + 2⟩ b).length =
      (userRels s b).length + 1 := by
    unfold userRels
    show ((s.rels ++ _).filter _).length = _
    rw [List.filter_append]
    simp [List.filter, hab_beq]
  have haccept := requestOrAccept_accept
    ⟨s.rels ++ [⟨s.nextId, b, a, RelationshipType.incoming⟩,
                ⟨s.nextId + 1, a, b, RelationshipType.outgoing⟩], s.nextId + 2⟩
    b a maxF hne _ _ hfind1 rfl hfind2 rfl (by rw [hlen]; exact hcapB)
  rw [haccept]
  refine ⟨rfl, rfl, ?_⟩
  dsimp only
  rw [updateRel_append_two _ _ _ _ _
    (fun x hx => by have := hwf.1 x hx; show x.id ≠ s.nextId + 1; omega)]
  have he1 : ((⟨s.nextId, b, a, RelationshipType.incoming⟩ : Relationship).id ==
      (⟨s.nextId + 1, a, b, RelationshipType.friends⟩ : Relationship).id) = false := by
    simp
  have he2 : ((⟨s.nextId + 1, a, b, RelationshipType.outgoing⟩ : Relationship).id ==
      (⟨s.nextId + 1, a, b, RelationshipType.friends⟩ : Relationship).id) = true := by
    simp
  rw [he1, he2]
  simp only [if_false, if_true, Bool.false_eq_true]
  rw [updateRel_append_two _ _ _ _ _
    (fun x hx => by have := hwf.1 x hx; show x.id ≠ s.nextId; omega)]
  have he3 : ((⟨s.nextId, b, a, RelationshipType.incoming⟩ : Relationship).id ==
      (⟨s.nextId, b, a, RelationshipType.friends⟩ : Relationship).id) = true := by
    simp
  have he4 : ((⟨s.nextId + 1, a, b, RelationshipType.friends⟩ : Relationship).id ==
      (⟨s.nextId, b, a, RelationshipType.friends⟩ : Relationship).id) = false := by
    simp
  rw [he3, he4]
  simp

/-! ### The claims -/

/-- C6, counterexample: a self-targeted `requestOrAccept` does fail with
the self-action error, but only after the route has already read the
target user record: the access trace of the failing call is the singleton
read, not empty, refuting "checked before any store access". -/
theorem selfAction_store_access_cex :
    (requestOrAccept 0 0 5 ⟨[], 0⟩).outcome = Except.error RelError.selfAdd ∧
    (requestOrAccept 0 0 5 ⟨[], 0⟩).ops = [StoreOp.readUser 0] ∧
    (requestOrAccept 0 0 5 ⟨[], 0⟩).ops ≠ [] := by decide

/-- C6, amended: every self-targeted operation fails with a self-action
error, leaves the store unchanged, performs no write and emits no event;
the remove route checks before any store access, while the request and
block routes read the target user record - and nothing else - before the
check. -/
theorem selfAction_always_fails (uid maxF : Nat) (s : Store) :
    requestOrAccept uid uid maxF s =
      { outcome := Except.error RelError.selfAdd, store := s,
        ops := [StoreOp.readUser uid], events := [] } ∧
    block uid uid maxF s =
      { outcome := Except.error RelError.selfAdd, store := s,
        ops := [StoreOp.readUser uid], events := [] } ∧
    deleteRelationship uid uid s =
      { outcome := Except.error RelError.selfRemove, store := s,
        ops := [], events := [] } := by
  refine ⟨?_, ?_, ?_⟩ <;>
    simp [requestOrAccept, block, putRelationship, deleteRelationship]

/-- C1, counterexample: with `maxFriends = 1`, a user holding zero
friends-kind edges but one blocked-kind edge still fails with the
friends-limit error, refuting "the cap is evaluated against the count of
friends-kind edges only": the source compares `user.relationships.length`,
the total edge count. -/
theorem maxFriends_counts_all_kinds_cex :
    friendsCount ⟨[⟨0, 0, 2, RelationshipType.blocked⟩], 1⟩ 0 = 0 ∧
    (requestOrAccept 0 1 1 ⟨[⟨0, 0, 2, RelationshipType.blocked⟩], 1⟩).outcome =
      Except.error (RelError.maximumFriends 1) := by decide

/-- C1, amended: when the initiator already holds at least `maxFriends`
relationship edges of any kind (in particular when holding `maxFriends`
friends-kind edges), `requestOrAccept` fails with the friends-limit error
and aborts before any write: the store is unchanged, the trace holds only
the two user reads, and no event is emitted; the cap is not applied on
the block path, which never returns the friends-limit error. -/
theorem maxFriends_cap (s : Store) (uid fid maxF : Nat) (hne : fid ≠ uid)
    (hcap : maxF ≤ (userRels s uid).length) :
    requestOrAccept uid fid maxF s =
      { outcome := Except.error (RelError.maximumFriends maxF), store := s,
        ops := [StoreOp.readUser fid, StoreOp.readUser uid], events := [] } ∧
    (∀ m, (block uid fid maxF s).outcome ≠ Except.error (RelError.maximumFriends m)) := by
  constructor
  · unfold requestOrAccept putRelationship
    rw [if_neg (by simp [hne])]
    simp only [show (RelationshipType.friends == RelationshipType.blocked) = false from rfl,
      Bool.false_eq_true, if_false]
    rw [if_pos hcap]
  · intro m hm
    rcases block_outcome_cases uid fid maxF s with h | h | h <;> rw [hm] at h <;> cases h

/-- C1 witness for the amended theorem: a user at the cap (one edge,
`maxFriends = 1`) is rejected with no writes and no events. -/
theorem maxFriends_cap_witness :
    (1 : Nat) ≠ 0 ∧
    1 ≤ (userRels ⟨[⟨0, 0, 2, RelationshipType.blocked⟩], 1⟩ 0).length ∧
    (requestOrAccept 0 1 1 ⟨[⟨0, 0, 2, RelationshipType.blocked⟩], 1⟩ =
      { outcome := Except.error (RelError.maximumFriends 1),
        store := ⟨[⟨0, 0, 2, RelationshipType.blocked⟩], 1⟩,
        ops := [StoreOp.readUser 1, StoreOp.readUser 0], events := [] } ∧
     (∀ m, (block 0 1 1 ⟨[⟨0, 0, 2, RelationshipType.blocked⟩], 1⟩).outcome ≠
        Except.error (RelError.maximumFriends m))) :=
  ⟨by decide, by decide,
    maxFriends_cap ⟨[⟨0, 0, 2, RelationshipType.blocked⟩], 1⟩ 0 1 1 (by decide) (by decide)⟩

/-- C2: for distinct users with no prior edges between them (and both
below the cap with room for the pending edge), a request followed by the
reciprocal request succeeds in all four calls and leaves both users
holding a friends edge toward the other; the reversed call order produces
the identical end state: the edge-kind maps of the two resulting stores
agree on every ordered pair (row ids and row order are storage artifacts
the database assigns). -/
theorem requestOrAccept_commutes (s : Store) (a b maxF : Nat)
    (hwf : Store.WF s) (hne : a ≠ b)
    (hab : findRel s a b = none) (hba : findRel s b a = none)
    (hcapA : (userRels s a).length + 1 < maxF)
    (hcapB : (userRels s b).length + 1 < maxF) :
    (requestOrAccept a b maxF s).outcome = Except.ok () ∧
    (requestOrAccept b a maxF (requestOrAccept a b maxF s).store).outcome =
      Except.ok () ∧
    (requestOrAccept b a maxF s).outcome = Except.ok () ∧
    (requestOrAccept a b maxF (requestOrAccept b a maxF s).store).outcome =
      Except.ok () ∧
    edgeKind (requestOrAccept b a maxF (requestOrAccept a b maxF s).store).store a b =
      some RelationshipType.friends ∧
    edgeKind (requestOrAccept b a maxF (requestOrAccept a b maxF s).store).store b a =
      some RelationshipType.friends ∧
    (∀ x y,
      edgeKind (requestOrAccept b a maxF (requestOrAccept a b maxF s).store).store x y =
      edgeKind (requestOrAccept a b maxF (requestOrAccept b a maxF s).store).store x y) := by
  have h1 := requestOrAccept_pair s a b maxF hwf hne hab hba (by omega) hcapB
  have h2 := requestOrAccept_pair s b a maxF hwf (Ne.symm hne) hba hab (by omega) hcapA
  have hab_beq : (a == b) = false := by
    simp [hne]
  have hba_beq : (b == a) = false := by
    simp [Ne.symm hne]
  have hab' : s.rels.find? (fun r => r.from_id == a && r.to_id == b) = none := by
    rw [← findRel_eq_find?]
    exact hab
  have hba' : s.rels.find? (fun r => r.from_id == b && r.to_id == a) = none := by
    rw [← findRel_eq_find?]
    exact hba
  refine ⟨h1.1, h1.2.1, h2.1, h2.2.1, ?_, ?_, ?_⟩
  · rw [h1.2.2, edgeKind, findRel_eq_find?]
    show ((((s.rels ++ _).find? _)).map _) = _
    rw [List.find?_append, hab']
    simp [List.find?, hba_beq]
  · rw [h1.2.2, edgeKind, findRel_eq_find?]
    show ((((s.rels ++ _).find? _)).map _) = _
    rw [List.find?_append, hba']
    simp [List.find?]
  · intro x y
    rw [h1.2.2, h2.2.2, edgeKind, edgeKind, findRel_eq_find?, findRel_eq_find?]
    show ((((s.rels ++ _).find? _)).map _) = ((((s.rels ++ _).find? _)).map _)
    rw [List.find?_append, List.find?_append]
    cases hbase : s.rels.find? (fun r => r.from_id == x && r.to_id == y) with
    | some r => simp
    | none =>
      simp only [Option.none_or]
      by_cases hxa : x = a
      · by_cases hyb : y = b
        · simp [List.find?, hxa, hyb, hab_beq, hba_beq]
        · have h1b : (b == y) = false := by
            simp
            intro hcontra
            exact hyb hcontra.symm
          by_cases hya : y = a
          · simp [List.find?, hxa, hya, hab_beq, hba_beq, h1b]
          · have h2b : (a == y) = false := by
              simp
              intro hcontra
              exact hya hcontra.symm
            simp [List.find?, hxa, hab_beq, hba_beq, h1b, h2b]
      · by_cases hxb : x = b
        · by_cases hya : y = a
          · simp [List.find?, hxb, hya, hab_beq, hba_beq]
          · have h2b : (a == y) = false := by
              simp
              intro hcontra
              exact hya hcontra.symm
            by_cases hyb : y = b
            · simp [List.find?, hxb, hyb, hab_beq, hba_beq, h2b]
            · have h1b : (b == y) = false := by
                simp
                intro hcontra
                exact hyb hcontra.symm
              simp [List.find?, hxb, hab_beq, hba_beq, h1b, h2b]
        · have h3b : (b == x) = false := by
            simp
            intro hcontra
            exact hxb hcontra.symm
          have h4b : (a == x) = false := by
            simp
            intro hcontra
            exact hxa hcontra.symm
          simp [List.find?, h3b, h4b]

/-- C2 witness: users 0 and 1 on a store holding one unrelated edge, cap
3: both call orders end with mutual friends edges. -/
theorem requestOrAccept_commutes_witness :
    Store.WF ⟨[⟨0, 2, 3, RelationshipType.friends⟩], 1⟩ ∧
    (requestOrAccept 0 1 3 ⟨[⟨0, 2, 3, RelationshipType.friends⟩], 1⟩).outcome =
      Except.ok () ∧
    edgeKind (requestOrAccept 1 0 3
        (requestOrAccept 0 1 3 ⟨[⟨0, 2, 3, RelationshipType.friends⟩], 1⟩).store).store 0 1 =
      some RelationshipType.friends ∧
    edgeKind (requestOrAccept 1 0 3
        (requestOrAccept 0 1 3 ⟨[⟨0, 2, 3, RelationshipType.friends⟩], 1⟩).store).store 1 0 =
      some RelationshipType.friends := by
  have h := requestOrAccept_commutes ⟨[⟨0, 2, 3, RelationshipType.friends⟩], 1⟩ 0 1 3
    (by decide) (by decide) (by decide) (by decide) (by decide) (by decide)
  exact ⟨by decide, h.1, h.2.2.2.2.1, h.2.2.2.2.2.1⟩

/-- C3: when the target holds a non-blocked edge toward the initiator,
and the initiator has not already blocked the target (the one state in
which the source instead fails with AlreadyBlocked, per the re-blocking
carve-out the spec states on the same transition row), block succeeds:
the initiator's edge toward the target becomes blocked, the target's edge
toward the initiator is deleted, and the emitted events are exactly one
REMOVE to the target carrying the target's deleted edge, followed by one
ADD carrying the blocked edge, delivered to the initiator only. -/
theorem block_prunes_target_edge (s : Store) (uid fid maxF : Nat) (fr : Relationship)
    (hwf : Store.WF s) (hne : fid ≠ uid)
    (hfr : findRel s fid uid = some fr) (hfrt : fr.type ≠ RelationshipType.blocked)
    (hmine : ∀ r, findRel s uid fid = some r → r.type ≠ RelationshipType.blocked) :
    (block uid fid maxF s).outcome = Except.ok () ∧
    edgeKind (block uid fid maxF s).store uid fid = some RelationshipType.blocked ∧
    findRel (block uid fid maxF s).store fid uid = none ∧
    ∃ b : Relationship, b.from_id = uid ∧ b.to_id = fid ∧
      b.type = RelationshipType.blocked ∧
      (block uid fid maxF s).events =
        [ { event := EventType.remove, user_id := fid, data := fr },
          { event := EventType.add, user_id := uid, data := b } ] := by
  obtain ⟨b, hbf, hbt, hbk, hok, hself, hother, hevents⟩ :=
    block_success_spec s uid fid maxF hwf hne hmine
  rw [hfr] at hother hevents
  simp only [if_neg hfrt] at hother hevents
  refine ⟨hok, ?_, hother, b, hbf, hbt, hbk, hevents⟩
  simp [edgeKind, hself, hbk]

/-- C3 witness: user 1 holds a pending outgoing request toward user 0
(user 0 the matching incoming one); user 0 blocks user 1. -/
theorem block_prunes_target_edge_witness :
    Store.WF ⟨[⟨0, 1, 0, RelationshipType.outgoing⟩,
               ⟨1, 0, 1, RelationshipType.incoming⟩], 2⟩ ∧
    (block 0 1 5 ⟨[⟨0, 1, 0, RelationshipType.outgoing⟩,
                   ⟨1, 0, 1, RelationshipType.incoming⟩], 2⟩).outcome = Except.ok () ∧
    edgeKind (block 0 1 5 ⟨[⟨0, 1, 0, RelationshipType.outgoing⟩,
                            ⟨1, 0, 1, RelationshipType.incoming⟩], 2⟩).store 0 1 =
      some RelationshipType.blocked ∧
    findRel (block 0 1 5 ⟨[⟨0, 1, 0, RelationshipType.outgoing⟩,
                           ⟨1, 0, 1, RelationshipType.incoming⟩], 2⟩).store 1 0 = none := by
  have h := block_prunes_target_edge
    ⟨[⟨0, 1, 0, RelationshipType.outgoing⟩, ⟨1, 0, 1, RelationshipType.incoming⟩], 2⟩
    0 1 5 ⟨0, 1, 0, RelationshipType.outgoing⟩ (by decide) (by decide) (by decide)
    (by decide)
    (by
      intro r hr
      rw [show findRel ⟨[⟨0, 1, 0, RelationshipType.outgoing⟩,
            ⟨1, 0, 1, RelationshipType.incoming⟩], 2⟩ 0 1 =
          some (⟨1, 0, 1, RelationshipType.incoming⟩ : Relationship) from by decide] at hr
      cases hr
      decide)
  exact ⟨by decide, h.1, h.2.1, h.2.2.1⟩

/-- C4 counterexample: when the target had itself blocked the initiator,
`block` succeeds, yet the target still holds its own blocked edge toward
the initiator afterwards - refuting "at no point afterwards does B hold
or observe any edge toward A". -/
theorem block_target_edge_survives_cex :
    (block 0 1 5 ⟨[⟨0, 1, 0, RelationshipType.blocked⟩], 1⟩).outcome = Except.ok () ∧
    edgeKind (block 0 1 5 ⟨[⟨0, 1, 0, RelationshipType.blocked⟩], 1⟩).store 1 0 =
      some RelationshipType.blocked := by decide

/-- C4 (amended): given the success precondition (the initiator does not
already hold a blocked edge toward the target), the first block succeeds;
a second block then fails with AlreadyBlocked and changes no state,
performing no write and emitting no event; after the block the target
holds no edge toward the initiator except possibly a blocked edge it had
itself created earlier; and the target observes nothing of the block: the
only event delivered to the target is the REMOVE for its own deleted
edge. -/
theorem block_idempotent_to_error (s : Store) (uid fid maxF : Nat)
    (hwf : Store.WF s) (hne : fid ≠ uid)
    (hpre : ∀ r, findRel s uid fid = some r → r.type ≠ RelationshipType.blocked) :
    (block uid fid maxF s).outcome = Except.ok () ∧
    (∀ r, findRel (block uid fid maxF s).store fid uid = some r →
       r.type = RelationshipType.blocked) ∧
    block uid fid maxF (block uid fid maxF s).store =
      { outcome := Except.error RelError.alreadyBlocked,
        store := (block uid fid maxF s).store,
        ops := [StoreOp.readUser fid, StoreOp.readUser uid], events := [] } ∧
    (∀ e ∈ (block uid fid maxF s).events, e.user_id = fid →
       e.event = EventType.remove) := by
  obtain ⟨b, hbf, hbt, hbk, hok, hself, hother, hevents⟩ :=
    block_success_spec s uid fid maxF hwf hne hpre
  refine ⟨hok, ?_, block_alreadyBlocked _ _ _ _ hne b hself hbk, ?_⟩
  · intro r hr
    rw [hother] at hr
    cases hfr : findRel s fid uid with
    | some fr =>
      rw [hfr] at hr
      by_cases hft : fr.type = RelationshipType.blocked
      · simp only [if_pos hft] at hr
        injection hr with h
        rw [← h]
        exact hft
      · simp only [if_neg hft] at hr
        cases hr
    | none =>
      rw [hfr] at hr
      cases hr
  · intro e he huser
    rw [hevents] at he
    have huid : uid ≠ fid := Ne.symm hne
    cases hfr : findRel s fid uid with
    | some fr =>
      rw [hfr] at he
      by_cases hft : fr.type = RelationshipType.blocked
      · simp only [if_pos hft, List.mem_singleton] at he
        rw [he] at huser
        exact absurd huser huid
      · simp only [if_neg hft, List.mem_cons, List.mem_singleton] at he
        rcases he with he | he | he
        · rw [he]
        · rw [he] at huser
          exact absurd huser huid
        · cases he
    | none =>
      rw [hfr] at he
      simp only [List.mem_singleton] at he
      rw [he] at huser
      exact absurd huser huid

/-- C4 witness for the amended theorem: user 0 blocks user 1 who held a
pending request; re-blocking fails with AlreadyBlocked and changes
nothing. -/
theorem block_idempotent_to_error_witness :
    Store.WF ⟨[⟨0, 1, 0, RelationshipType.outgoing⟩,
               ⟨1, 0, 1, RelationshipType.incoming⟩], 2⟩ ∧
    (block 0 1 5 ⟨[⟨0, 1, 0, RelationshipType.outgoing⟩,
                   ⟨1, 0, 1, RelationshipType.incoming⟩], 2⟩).outcome = Except.ok () ∧
    block 0 1 5 (block 0 1 5 ⟨[⟨0, 1, 0, RelationshipType.outgoing⟩,
                               ⟨1, 0, 1, RelationshipType.incoming⟩], 2⟩).store =
      { outcome := Except.error RelError.alreadyBlocked,
        store := (block 0 1 5 ⟨[⟨0, 1, 0, RelationshipType.outgoing⟩,
                                ⟨1, 0, 1, RelationshipType.incoming⟩], 2⟩).store,
        ops := [StoreOp.readUser 1, StoreOp.readUser 0], events := [] } := by
  have h := block_idempotent_to_error
    ⟨[⟨0, 1, 0, RelationshipType.outgoing⟩, ⟨1, 0, 1, RelationshipType.incoming⟩], 2⟩
    0 1 5 (by decide) (by decide)
    (by
      intro r hr
      rw [show findRel ⟨[⟨0, 1, 0, RelationshipType.outgoing⟩,
            ⟨1, 0, 1, RelationshipType.incoming⟩], 2⟩ 0 1 =
          some (⟨1, 0, 1, RelationshipType.incoming⟩ : Relationship) from by decide] at hr
      cases hr
      decide)
  exact ⟨by decide, h.1, h.2.2.1⟩

/-- C5: when the two users are friends both ways, remove deletes both
rows and emits exactly one REMOVE to each side, each carrying that side's
own deleted edge; when the initiator holds no edge toward the target,
remove fails with the 404-class NotRelated error, changing nothing. -/
theorem remove_friends_spec (s : Store) (uid fid : Nat)
    (hwf : Store.WF s) (hne : fid ≠ uid) :
    (∀ rel fr, findRel s uid fid = some rel →
       rel.type = RelationshipType.friends →
       findRel s fid uid = some fr → fr.type = RelationshipType.friends →
       deleteRelationship uid fid s =
         { outcome := Except.ok (),
           store := deleteRel (deleteRel s fr.id) rel.id,
           ops := [StoreOp.readUser uid, StoreOp.readUser fid,
                   StoreOp.delete fr.id, StoreOp.delete rel.id],
           events := [ { event := EventType.remove, user_id := fid, data := fr },
                       { event := EventType.remove, user_id := uid, data := rel } ] } ∧
       findRel (deleteRelationship uid fid s).store uid fid = none ∧
       findRel (deleteRelationship uid fid s).store fid uid = none) ∧
    (findRel s uid fid = none →
       deleteRelationship uid fid s =
         { outcome := Except.error RelError.notRelated, store := s,
           ops := [StoreOp.readUser uid, StoreOp.readUser fid], events := [] }) := by
  constructor
  · intro rel fr hrel hrelt hfr hfrt
    obtain ⟨hrmem, hrfrom, hrto⟩ := findRel_some hrel
    obtain ⟨hfmem, hffrom, hfto⟩ := findRel_some hfr
    have hrelfr : rel.id ≠ fr.id := by
      intro hcontra
      have := id_inj hwf hrmem hfmem hcontra
      rw [this, hffrom] at hrfrom
      exact hne hrfrom
    have heq : deleteRelationship uid fid s =
        { outcome := Except.ok (),
          store := deleteRel (deleteRel s fr.id) rel.id,
          ops := [StoreOp.readUser uid, StoreOp.readUser fid,
                  StoreOp.delete fr.id, StoreOp.delete rel.id],
          events := [ { event := EventType.remove, user_id := fid, data := fr },
                      { event := EventType.remove, user_id := uid, data := rel } ] } := by
      unfold deleteRelationship
      rw [if_neg (by simp [hne])]
      simp [hrel, hfr, hrelt, hfrt]
    refine ⟨heq, ?_, ?_⟩
    · rw [heq]
      show findRel (deleteRel (deleteRel s fr.id) rel.id) uid fid = none
      have hstep : ∀ x ∈ (deleteRel s fr.id).rels, x.from_id = uid → x.to_id = fid →
          x = rel := fun x hx hxf hxt =>
        pair_uniq hwf (mem_deleteRel hx) hrmem (by rw [hxf, hrfrom]) (by rw [hxt, hrto])
      exact findRel_deleteRel_none _ rel uid fid hstep
    · rw [heq]
      show findRel (deleteRel (deleteRel s fr.id) rel.id) fid uid = none
      rw [findRel_deleteRel_eq]
      · exact findRel_deleteRel_none s fr fid uid (fun x hx hxf hxt =>
          pair_uniq hwf hx hfmem (by rw [hxf, hffrom]) (by rw [hxt, hfto]))
      · intro x hx hxf hxt
        have : x = fr :=
          pair_uniq hwf (mem_deleteRel hx) hfmem (by rw [hxf, hffrom]) (by rw [hxt, hfto])
        rw [this]
        intro hcontra
        exact hrelfr hcontra.symm
  · intro hrel
    unfold deleteRelationship
    rw [if_neg (by simp [hne])]
    simp [hrel]

/-- C5 witness: users 0 and 1 are friends both ways; user 0 removes the
friendship; on the empty store the same call is NotRelated. -/
theorem remove_friends_spec_witness :
    Store.WF ⟨[⟨0, 0, 1, RelationshipType.friends⟩,
               ⟨1, 1, 0, RelationshipType.friends⟩], 2⟩ ∧
    findRel (deleteRelationship 0 1 ⟨[⟨0, 0, 1, RelationshipType.friends⟩,
        ⟨1, 1, 0, RelationshipType.friends⟩], 2⟩).store 0 1 = none ∧
    findRel (deleteRelationship 0 1 ⟨[⟨0, 0, 1, RelationshipType.friends⟩,
        ⟨1, 1, 0, RelationshipType.friends⟩], 2⟩).store 1 0 = none ∧
    deleteRelationship 0 1 ⟨[], 0⟩ =
      { outcome := Except.error RelError.notRelated, store := ⟨[], 0⟩,
        ops := [StoreOp.readUser 0, StoreOp.readUser 1], events := [] } := by
  have h := remove_friends_spec
    ⟨[⟨0, 0, 1, RelationshipType.friends⟩, ⟨1, 1, 0, RelationshipType.friends⟩], 2⟩
    0 1 (by decide) (by decide)
  have h1 := h.1 ⟨0, 0, 1, RelationshipType.friends⟩ ⟨1, 1, 0, RelationshipType.friends⟩
    (by decide) rfl (by decide) rfl
  have h2 := (remove_friends_spec ⟨[], 0⟩ 0 1 (by decide) (by decide)).2 (by decide)
  exact ⟨by decide, h1.2.1, h1.2.2, h2⟩

theorem regCreate_no_fieldError (body : RegisterBody) (env : RegisterEnv) (f c : String) :
    (regCreate body env).result ≠ RegResult.fieldError f c := by
  unfold regCreate
  cases hbi : body.invite with
  | none => simp
  | some i =>
    by_cases hv : env.inviteValid i = true <;> simp [hv]

theorem regInvite_fieldError_email (body : RegisterBody) (cfg : RegisterCfg)
    (env : RegisterEnv) (f c : String)
    (h : (regInvite body cfg env).result = RegResult.fieldError f c) : f = "email" := by
  unfold regInvite at h
  split at h
  · injection h with h1 h2
    exact h1.symm
  · exact absurd h (regCreate_no_fieldError body env f c)

/-- Any field error produced from the password stage onward is scoped to
the password or email field. -/
theorem regPassword_fieldError_scope (body : RegisterBody) (cfg : RegisterCfg)
    (env : RegisterEnv) (f c : String)
    (h : (regPassword body cfg env).result = RegResult.fieldError f c) :
    f = "password" ∨ f = "email" := by
  cases hbp : body.password with
  | some p =>
    have heq : regPassword body cfg env = regInvite body cfg env := by
      unfold regPassword
      rw [hbp]
    rw [heq] at h
    exact Or.inr (regInvite_fieldError_email body cfg env f c h)
  | none =>
    have heq : regPassword body cfg env =
        (if cfg.passwordRequired then
          { result := RegResult.fieldError "password" "BASE_TYPE_REQUIRED", effects := [] }
        else regInvite body cfg env) := by
      unfold regPassword
      rw [hbp]
    rw [heq] at h
    by_cases hpr : cfg.passwordRequired = true
    · rw [if_pos hpr] at h
      injection h with h1 h2
      exact Or.inl h1.symm
    · rw [if_neg hpr] at h
      exact Or.inr (regInvite_fieldError_email body cfg env f c h)

/-- With the guard checks before the date-of-birth stage passing (and no
normalized email, with the email-required policy off), the register route
reduces to the date-of-birth stage. -/
theorem register_to_dob (body : RegisterBody) (cfg : RegisterCfg) (env : RegisterEnv)
    (h1 : cfg.allowNewRegistration = true) (h2 : body.consent = true)
    (h3 : cfg.disabled = false) (h4 : cfg.allowGuests = true)
    (h5 : cfg.requireCaptcha = false) (h6 : cfg.allowMultipleAccounts = true)
    (h7 : cfg.blockProxies = false) (h8 : env.adjustEmail body.email = none)
    (h9 : cfg.emailRequired = false) :
    register body cfg env = regDob body cfg env := by
  simp [register, regCaptcha, regFingerprint, regProxy, regEmail,
    h1, h2, h3, h4, h5, h6, h7, h8, h9]

/-- C7: with registration globally enabled, a payload whose consent flag
is false fails with a field error scoped to the consent field only, code
CONSENT_REQUIRED, regardless of every other field: the consent check is
second in the pipeline and its failure halts the pipeline with no
effects. -/
theorem register_consent_required (body : RegisterBody) (cfg : RegisterCfg)
    (env : RegisterEnv) (hallow : cfg.allowNewRegistration = true)
    (hconsent : body.consent = false) :
    register body cfg env =
      { result := RegResult.fieldError "consent" "CONSENT_REQUIRED", effects := [] } := by
  simp [register, hallow, hconsent]

/-- C7 witness: the precedence scenario of the spec, a payload with
consent false but a valid email and password. -/
theorem register_consent_required_witness :
    cfgA.allowNewRegistration = true ∧
    register { bodyA with
               consent := false,
               email := some "x@gmail.com",
               password := some "abc" } cfgA envA =
      { result := RegResult.fieldError "consent" "CONSENT_REQUIRED", effects := [] } :=
  ⟨rfl, register_consent_required _ _ _ rfl rfl⟩

/-- C8: with the guard checks before the date-of-birth stage passing and
the policy requiring a date of birth with a nonzero minimum age, a birth
date exactly equal to the cutoff (now minus the minimum years) is not
rejected for age, while a birth date one day later - one day younger - is
rejected with DATE_OF_BIRTH_UNDERAGE. -/
theorem register_dob_boundary (body : RegisterBody) (cfg : RegisterCfg) (env : RegisterEnv)
    (h1 : cfg.allowNewRegistration = true) (h2 : body.consent = true)
    (h3 : cfg.disabled = false) (h4 : cfg.allowGuests = true)
    (h5 : cfg.requireCaptcha = false) (h6 : cfg.allowMultipleAccounts = true)
    (h7 : cfg.blockProxies = false) (h8 : env.adjustEmail body.email = none)
    (h9 : cfg.emailRequired = false) (h10 : cfg.dobRequired = true)
    (h11 : cfg.dobMinimum ≠ 0) :
    (body.date_of_birth = some (env.nowMinusYears cfg.dobMinimum) →
       (register body cfg env).result ≠
         RegResult.fieldError "date_of_birth" "DATE_OF_BIRTH_UNDERAGE") ∧
    (body.date_of_birth = some (env.nowMinusYears cfg.dobMinimum + 1) →
       (register body cfg env).result =
         RegResult.fieldError "date_of_birth" "DATE_OF_BIRTH_UNDERAGE") := by
  have hreg := register_to_dob body cfg env h1 h2 h3 h4 h5 h6 h7 h8 h9
  have h11b : (cfg.dobMinimum != 0) = true := by simpa using h11
  constructor
  · intro hd hcontra
    rw [hreg] at hcontra
    unfold regDob at hcontra
    rw [hd] at hcontra
    simp [h10, h11b, lt_irrefl] at hcontra
    rcases regPassword_fieldError_scope body cfg env _ _ hcontra with h | h
    · exact absurd h (by decide)
    · exact absurd h (by decide)
  · intro hd
    rw [hreg]
    unfold regDob
    rw [hd]
    simp [h10, h11b,
      show env.nowMinusYears cfg.dobMinimum < env.nowMinusYears cfg.dobMinimum + 1 from
        lt_add_one _]

/-- C8 witness: with a 13-year minimum and the cutoff at day -4745, the
boundary birth date is accepted (not rejected for age) and the one-day
younger birth date is rejected with DATE_OF_BIRTH_UNDERAGE. -/
theorem register_dob_boundary_witness :
    cfgA.dobRequired = true ∧ cfgA.dobMinimum ≠ 0 ∧
    (register { bodyA with date_of_birth := some (-4745) } cfgA envA).result ≠
      RegResult.fieldError "date_of_birth" "DATE_OF_BIRTH_UNDERAGE" ∧
    (register { bodyA with date_of_birth := some (-4744) } cfgA envA).result =
      RegResult.fieldError "date_of_birth" "DATE_OF_BIRTH_UNDERAGE" := by
  have hA := register_dob_boundary { bodyA with date_of_birth := some (-4745) } cfgA envA
    rfl rfl rfl rfl rfl rfl rfl rfl rfl rfl (by decide)
  have hB := register_dob_boundary { bodyA with date_of_birth := some (-4744) } cfgA envA
    rfl rfl rfl rfl rfl rfl rfl rfl rfl rfl (by decide)
  exact ⟨rfl, by decide, hA.1 (by decide), hB.2 (by decide)⟩

/-- C9: when every guard passes and the payload carries an invite code
that fails to redeem, the route creates the account first and attempts
the redemption afterwards; the redemption failure is surfaced to the
caller while the account creation is not rolled back: the effect trace of
the call is exactly the account creation followed by the redemption
attempt, with no compensating effect. -/
theorem register_invite_failure_after_create (body : RegisterBody) (cfg : RegisterCfg)
    (env : RegisterEnv) (cinv pw : String)
    (h1 : cfg.allowNewRegistration = true) (h2 : body.consent = true)
    (h3 : cfg.disabled = false) (h4 : cfg.allowGuests = true)
    (h5 : cfg.requireCaptcha = false) (h6 : cfg.allowMultipleAccounts = true)
    (h7 : cfg.blockProxies = false) (h8 : env.adjustEmail body.email = none)
    (h9 : cfg.emailRequired = false) (h10 : cfg.dobRequired = false)
    (hpw : body.password = some pw) (hinv : body.invite = some cinv)
    (hredeem : env.inviteValid cinv = false) :
    register body cfg env =
      { result := RegResult.inviteFailed,
        effects := [RegEffect.createAccount, RegEffect.redeemInvite cinv] } := by
  rw [register_to_dob body cfg env h1 h2 h3 h4 h5 h6 h7 h8 h9]
  unfold regDob regPassword regInvite regCreate
  simp [h10, hpw, hinv, hredeem]

/-- C9 witness: a payload with password and invalid invite code under a
configuration without date-of-birth requirement. -/
theorem register_invite_failure_after_create_witness :
    envA.inviteValid "code" = false ∧
    register { bodyA with password := some "pw", invite := some "code" }
      { cfgA with dobRequired := false } envA =
      { result := RegResult.inviteFailed,
        effects := [RegEffect.createAccount, RegEffect.redeemInvite "code"] } :=
  ⟨rfl, register_invite_failure_after_create _ _ _ "code" "pw"
    rfl rfl rfl rfl rfl rfl rfl rfl rfl rfl rfl rfl rfl⟩

/-- C10: with the guard checks before the date-of-birth stage passing and
the policy requiring a date of birth, a payload missing the date of birth
is rejected with the BASE_TYPE_REQUIRED field error only when a password
is supplied: a guest payload (no password) passes the stage despite the
requirement. -/
theorem register_guest_dob_exempt (body : RegisterBody) (cfg : RegisterCfg)
    (env : RegisterEnv) (pw : String)
    (h1 : cfg.allowNewRegistration = true) (h2 : body.consent = true)
    (h3 : cfg.disabled = false) (h4 : cfg.allowGuests = true)
    (h5 : cfg.requireCaptcha = false) (h6 : cfg.allowMultipleAccounts = true)
    (h7 : cfg.blockProxies = false) (h8 : env.adjustEmail body.email = none)
    (h9 : cfg.emailRequired = false) (h10 : cfg.dobRequired = true)
    (hdob : body.date_of_birth = none) :
    (body.password = none →
       (register body cfg env).result ≠
         RegResult.fieldError "date_of_birth" "BASE_TYPE_REQUIRED") ∧
    (body.password = some pw →
       (register body cfg env).result =
         RegResult.fieldError "date_of_birth" "BASE_TYPE_REQUIRED") := by
  have hreg := register_to_dob body cfg env h1 h2 h3 h4 h5 h6 h7 h8 h9
  constructor
  · intro hpw hcontra
    rw [hreg] at hcontra
    unfold regDob at hcontra
    rw [hdob, hpw] at hcontra
    simp [ite_self] at hcontra
    rcases regPassword_fieldError_scope body cfg env _ _ hcontra with h | h
    · exact absurd h (by decide)
    · exact absurd h (by decide)
  · intro hpw
    rw [hreg]
    unfold regDob
    rw [hdob, hpw]
    simp [h10]

/-- C10 witness: the all-absent guest payload passes the date-of-birth
stage; the same payload with a password is rejected for the missing date
of birth. -/
theorem register_guest_dob_exempt_witness :
    cfgA.dobRequired = true ∧
    (register bodyA cfgA envA).result ≠
      RegResult.fieldError "date_of_birth" "BASE_TYPE_REQUIRED" ∧
    (register { bodyA with password := some "pw" } cfgA envA).result =
      RegResult.fieldError "date_of_birth" "BASE_TYPE_REQUIRED" := by
  have hA := register_guest_dob_exempt bodyA cfgA envA "pw"
    rfl rfl rfl rfl rfl rfl rfl rfl rfl rfl rfl
  have hB := register_guest_dob_exempt { bodyA with password := some "pw" } cfgA envA "pw"
    rfl rfl rfl rfl rfl rfl rfl rfl rfl rfl rfl
  exact ⟨rfl, hA.1 rfl, hB.2 rfl⟩

end Fosscord
